import Mathlib

/-!
Verification of the orientation-classification core of the OCR service
(`src/app.py`): the classifier `detect_text_orientation_improved` and the
aggregator `analyze_text_orientations`.

Coordinates are modelled as rationals (exact values of the numeric inputs);
the rotation angle is computed over the reals with the mathematical
`atan2`, matching `np.arctan2`.
-/

open Real Classical

/-- The three orientation labels the classifier can return:
`'horizontal'`, `'vertical'`, `'rotated'` in `src/app.py`. -/
inductive TextOrientation where
  | horizontal
  | vertical
  | rotated
deriving DecidableEq, Repr, BEq

/-- Python's `max` over a list of numbers. The `[]` case is junk (Python
raises there); the classifier only calls it on lists of length ≥ 4. -/
def listMax : List ℚ → ℚ
  | [] => 0
  | x :: xs => xs.foldl max x

/-- Python's `min` over a list of numbers; `[]` case junk as in `listMax`. -/
def listMin : List ℚ → ℚ
  | [] => 0
  | x :: xs => xs.foldl min x

/-- The `x_coords` list of `detect_text_orientation_improved`. -/
def x_coords (coordinates : List (ℚ × ℚ)) : List ℚ :=
  coordinates.map Prod.fst

/-- The `y_coords` list of `detect_text_orientation_improved`. -/
def y_coords (coordinates : List (ℚ × ℚ)) : List ℚ :=
  coordinates.map Prod.snd

/-- `width = max(x_coords) - min(x_coords)` in `src/app.py`. -/
def widthOf (coordinates : List (ℚ × ℚ)) : ℚ :=
  listMax (x_coords coordinates) - listMin (x_coords coordinates)

/-- `height = max(y_coords) - min(y_coords)` in `src/app.py`. -/
def heightOf (coordinates : List (ℚ × ℚ)) : ℚ :=
  listMax (y_coords coordinates) - listMin (y_coords coordinates)

/-- The mathematical two-argument arctangent, as computed by
`np.arctan2(y, x)`: the angle of the vector `(x, y)` in `(-π, π]`,
with `arctan2 0 0 = 0`. -/
noncomputable def arctan2 (y x : ℝ) : ℝ :=
  if 0 < x then Real.arctan (y / x)
  else if x < 0 then
    (if 0 ≤ y then Real.arctan (y / x) + π else Real.arctan (y / x) - π)
  else
    (if 0 < y then π / 2 else if y < 0 then -(π / 2) else 0)

/-- `angle = abs(np.arctan2(p2[1] - p1[1], p2[0] - p1[0]) * 180 / np.pi)`
with `p1, p2 = coordinates[0], coordinates[1]` in `src/app.py`.
Out-of-range indexing is padded with `(0, 0)`; the classifier only uses
this on lists of length ≥ 4. -/
noncomputable def angleOf (coordinates : List (ℚ × ℚ)) : ℝ :=
  let p1 := coordinates.getD 0 (0, 0)
  let p2 := coordinates.getD 1 (0, 0)
  |arctan2 ((p2.2 : ℝ) - (p1.2 : ℝ)) ((p2.1 : ℝ) - (p1.1 : ℝ)) * 180 / π|

/-- `detect_text_orientation_improved` from `src/app.py`.  The Python body
is wrapped in `try/except` with a trailing `return 'horizontal'`: when
`len(coordinates) < 4` the `if` body is skipped and the trailing return
fires; for well-typed point lists of length ≥ 4 no exception can occur
(indexing is in range and division by zero is guarded), so the `except`
arm is dead in this model. -/
noncomputable def detect_text_orientation_improved
    (coordinates : List (ℚ × ℚ)) : TextOrientation :=
  if 4 ≤ coordinates.length then
    if widthOf coordinates = 0 then .vertical
    else if heightOf coordinates / widthOf coordinates > 5/2 then .vertical
    else if angleOf coordinates > 25 ∧ angleOf coordinates < 155 then .rotated
    else if heightOf coordinates / widthOf coordinates > 9/5 then .vertical
    else .horizontal
  else .horizontal

/-- The per-page tally dictionary
`{'horizontal': 0, 'vertical': 0, 'rotated': 0}` of
`analyze_text_orientations`: all three keys always present. -/
structure OrientationTally where
  horizontal : Nat
  vertical : Nat
  rotated : Nat
deriving DecidableEq, Repr

/-- `orientations[orientation] += 1` in `analyze_text_orientations`. -/
def tallyAdd (t : OrientationTally) : TextOrientation → OrientationTally
  | .horizontal => { t with horizontal := t.horizontal + 1 }
  | .vertical => { t with vertical := t.vertical + 1 }
  | .rotated => { t with rotated := t.rotated + 1 }

/-- `analyze_text_orientations` from `src/app.py`: classify every polygon
and tally the results, starting from the all-zero dictionary. -/
noncomputable def analyze_text_orientations
    (coordinates_list : List (List (ℚ × ℚ))) : OrientationTally :=
  coordinates_list.foldl
    (fun t coords => tallyAdd t (detect_text_orientation_improved coords))
    ⟨0, 0, 0⟩

/-- Folding `max` over a list whose elements all equal `x₀`, from an
accumulator equal to `x₀`, stays at `x₀`. -/
lemma foldl_max_all_eq (x₀ : ℚ) :
    ∀ (xs : List ℚ) (a : ℚ), a = x₀ → (∀ x ∈ xs, x = x₀) →
      xs.foldl max a = x₀ := by
  intro xs
  induction xs with
  | nil => intro a ha _; simpa using ha
  | cons y ys ih =>
    intro a ha h
    simp only [List.foldl_cons]
    refine ih (max a y) ?_ fun x hx => h x (List.mem_cons_of_mem _ hx)
    rw [ha, h y (List.mem_cons_self _ _), max_self]

/-- Folding `min` over a list whose elements all equal `x₀`, from an
accumulator equal to `x₀`, stays at `x₀`. -/
lemma foldl_min_all_eq (x₀ : ℚ) :
    ∀ (xs : List ℚ) (a : ℚ), a = x₀ → (∀ x ∈ xs, x = x₀) →
      xs.foldl min a = x₀ := by
  intro xs
  induction xs with
  | nil => intro a ha _; simpa using ha
  | cons y ys ih =>
    intro a ha h
    simp only [List.foldl_cons]
    refine ih (min a y) ?_ fun x hx => h x (List.mem_cons_of_mem _ hx)
    rw [ha, h y (List.mem_cons_self _ _), min_self]

/-- `listMax` of a nonempty constant list is the constant. -/
lemma listMax_all_eq (x₀ : ℚ) (xs : List ℚ) (hne : xs ≠ [])
    (h : ∀ x ∈ xs, x = x₀) : listMax xs = x₀ := by
  cases xs with
  | nil => exact absurd rfl hne
  | cons y ys =>
    exact foldl_max_all_eq x₀ ys y (h y (List.mem_cons_self _ _))
      fun x hx => h x (List.mem_cons_of_mem _ hx)

/-- `listMin` of a nonempty constant list is the constant. -/
lemma listMin_all_eq (x₀ : ℚ) (xs : List ℚ) (hne : xs ≠ [])
    (h : ∀ x ∈ xs, x = x₀) : listMin xs = x₀ := by
  cases xs with
  | nil => exact absurd rfl hne
  | cons y ys =>
    exact foldl_min_all_eq x₀ ys y (h y (List.mem_cons_self _ _))
      fun x hx => h x (List.mem_cons_of_mem _ hx)

/-- C1: with at least 4 points and positive width, an aspect ratio above
5/2 forces the Vertical answer, whatever the angle is: the ratio test is
decided before the angle test. -/
theorem classify_high_aspect_vertical (coordinates : List (ℚ × ℚ))
    (h4 : 4 ≤ coordinates.length) (hw : 0 < widthOf coordinates)
    (hr : heightOf coordinates / widthOf coordinates > 5/2) :
    detect_text_orientation_improved coordinates = .vertical := by
  unfold detect_text_orientation_improved
  rw [if_pos h4, if_neg hw.ne', if_pos hr]

theorem classify_high_aspect_vertical_witness :
    4 ≤ ([((0:ℚ), (0:ℚ)), (10, 0), (10, 100), (0, 100)]).length ∧
      0 < widthOf [((0:ℚ), (0:ℚ)), (10, 0), (10, 100), (0, 100)] ∧
      heightOf [((0:ℚ), (0:ℚ)), (10, 0), (10, 100), (0, 100)] /
          widthOf [((0:ℚ), (0:ℚ)), (10, 0), (10, 100), (0, 100)] > 5/2 ∧
      detect_text_orientation_improved
          [((0:ℚ), (0:ℚ)), (10, 0), (10, 100), (0, 100)] = .vertical :=
  have hw : 0 < widthOf [((0:ℚ), (0:ℚ)), (10, 0), (10, 100), (0, 100)] := by
    norm_num [widthOf, x_coords, listMax, listMin, max_def, min_def]
  have hr : heightOf [((0:ℚ), (0:ℚ)), (10, 0), (10, 100), (0, 100)] /
      widthOf [((0:ℚ), (0:ℚ)), (10, 0), (10, 100), (0, 100)] > 5/2 := by
    norm_num [widthOf, heightOf, x_coords, y_coords, listMax, listMin,
      max_def, min_def]
  ⟨by decide, hw, hr,
    classify_high_aspect_vertical _ (by decide) hw hr⟩

/-- C3: when all points of a (≥ 4 point) polygon share one x coordinate,
the width is 0 and the classifier short-circuits to Vertical. -/
theorem classify_zero_width_vertical (coordinates : List (ℚ × ℚ)) (x₀ : ℚ)
    (h4 : 4 ≤ coordinates.length) (hx : ∀ p ∈ coordinates, p.1 = x₀) :
    detect_text_orientation_improved coordinates = .vertical := by
  have hne : x_coords coordinates ≠ [] := by
    intro h
    have : coordinates.length = 0 := by
      simpa [x_coords] using congrArg List.length h
    omega
  have hall : ∀ x ∈ x_coords coordinates, x = x₀ := by
    intro x hmem
    obtain ⟨p, hp, rfl⟩ := List.mem_map.mp hmem
    exact hx p hp
  have hw : widthOf coordinates = 0 := by
    rw [widthOf, listMax_all_eq x₀ _ hne hall, listMin_all_eq x₀ _ hne hall,
      sub_self]
  unfold detect_text_orientation_improved
  rw [if_pos h4, if_pos hw]

theorem classify_zero_width_vertical_witness :
    4 ≤ ([((3:ℚ), (1:ℚ)), (3, 5), (3, 9), (3, 2)]).length ∧
      (∀ p ∈ [((3:ℚ), (1:ℚ)), (3, 5), (3, 9), (3, 2)], p.1 = 3) ∧
      detect_text_orientation_improved
          [((3:ℚ), (1:ℚ)), (3, 5), (3, 9), (3, 2)] = .vertical :=
  have hx : ∀ p ∈ [((3:ℚ), (1:ℚ)), (3, 5), (3, 9), (3, 2)], p.1 = 3 := by
    intro p hp
    fin_cases hp <;> norm_num
  ⟨by decide, hx,
    classify_zero_width_vertical _ 3 (by decide) hx⟩

/-- Tallying two orientations commutes: incrementing in either order gives
the same dictionary. -/
lemma tallyAdd_comm (t : OrientationTally) (a b : TextOrientation) :
    tallyAdd (tallyAdd t a) b = tallyAdd (tallyAdd t b) a := by
  cases a <;> cases b <;> rfl

/-- The tally fold of `analyze_text_orientations` is invariant under
permutation of the polygon list, for every starting tally. -/
lemma foldl_tally_perm (l₁ l₂ : List (List (ℚ × ℚ))) (hp : l₁.Perm l₂) :
    ∀ t : OrientationTally,
      l₁.foldl
          (fun t coords => tallyAdd t (detect_text_orientation_improved coords))
          t =
        l₂.foldl
          (fun t coords => tallyAdd t (detect_text_orientation_improved coords))
          t := by
  induction hp with
  | nil => intro t; rfl
  | cons x hxs ih => intro t; simp only [List.foldl_cons]; exact ih _
  | swap x y l => intro t; simp only [List.foldl_cons]; rw [tallyAdd_comm]
  | trans h1 h2 ih1 ih2 => intro t; rw [ih1 t, ih2 t]

/-- C8: the aggregator is order-independent: permuted polygon lists give
the same tally. -/
theorem aggregate_perm_invariant (l₁ l₂ : List (List (ℚ × ℚ)))
    (hp : l₁.Perm l₂) :
    analyze_text_orientations l₁ = analyze_text_orientations l₂ := by
  unfold analyze_text_orientations
  exact foldl_tally_perm l₁ l₂ hp _

theorem aggregate_perm_invariant_witness :
    analyze_text_orientations
        [[((0:ℚ), (0:ℚ))], [((1:ℚ), (2:ℚ)), (3, 4), (5, 6), (7, 8)]] =
      analyze_text_orientations
        [[((1:ℚ), (2:ℚ)), (3, 4), (5, 6), (7, 8)], [((0:ℚ), (0:ℚ))]] :=
  aggregate_perm_invariant _ _ (List.Perm.swap _ _ _)

/-- Folding the tally over a list adds exactly the list's length to the
sum of the three counts, from any starting tally. -/
lemma foldl_tally_sum (l : List (List (ℚ × ℚ))) :
    ∀ t : OrientationTally,
      (l.foldl
          (fun t coords => tallyAdd t (detect_text_orientation_improved coords))
          t).horizontal +
        (l.foldl
            (fun t coords =>
              tallyAdd t (detect_text_orientation_improved coords))
            t).vertical +
        (l.foldl
            (fun t coords =>
              tallyAdd t (detect_text_orientation_improved coords))
            t).rotated =
      t.horizontal + t.vertical + t.rotated + l.length := by
  induction l with
  | nil => intro t; simp
  | cons c cs ih =>
    intro t
    simp only [List.foldl_cons, List.length_cons]
    rw [ih (tallyAdd t (detect_text_orientation_improved c))]
    cases detect_text_orientation_improved c <;> simp [tallyAdd] <;> omega

/-- C10: the aggregator's tally has exactly the three orientation keys,
each a natural-number count, and the three counts sum to the number of
input polygons: every polygon is counted under exactly one orientation. -/
theorem aggregate_counts_every_polygon_once
    (coordinates_list : List (List (ℚ × ℚ))) :
    (analyze_text_orientations coordinates_list).horizontal +
      (analyze_text_orientations coordinates_list).vertical +
      (analyze_text_orientations coordinates_list).rotated =
      coordinates_list.length := by
  unfold analyze_text_orientations
  rw [foldl_tally_sum]
  simp

/-- C4: any coordinate list with fewer than 4 points (including fewer than
2) makes the classifier skip its body and return the Horizontal fallback,
never raising. -/
theorem classify_short_input_horizontal (coordinates : List (ℚ × ℚ))
    (h : coordinates.length < 4) :
    detect_text_orientation_improved coordinates = .horizontal := by
  unfold detect_text_orientation_improved
  rw [if_neg (by omega)]

theorem classify_short_input_horizontal_witness :
    ([((0:ℚ), (0:ℚ)), (1, 1)]).length < 4 ∧
      detect_text_orientation_improved [((0:ℚ), (0:ℚ)), (1, 1)] =
        .horizontal :=
  ⟨by decide, classify_short_input_horizontal _ (by decide)⟩

/-- C5: the classifier is a total function into the three-valued
orientation type: on every input it returns exactly one of
horizontal, vertical, rotated. -/
theorem classify_total_three_valued (coordinates : List (ℚ × ℚ)) :
    detect_text_orientation_improved coordinates = .horizontal ∨
      detect_text_orientation_improved coordinates = .vertical ∨
        detect_text_orientation_improved coordinates = .rotated := by
  cases h : detect_text_orientation_improved coordinates
  · exact Or.inl rfl
  · exact Or.inr (Or.inl rfl)
  · exact Or.inr (Or.inr rfl)

/-- `arctan2` never exceeds `π`. -/
lemma arctan2_le_pi (y x : ℝ) : arctan2 y x ≤ π := by
  unfold arctan2
  split_ifs with h1 h2 h3 h4 h5
  · exact (arctan_lt_pi_div_two _).le.trans (by linarith [pi_pos])
  · have hdiv : y / x ≤ 0 := div_nonpos_iff.mpr (Or.inl ⟨h3, h2.le⟩)
    have := arctan_strictMono.monotone hdiv
    rw [arctan_zero] at this
    linarith
  · linarith [arctan_lt_pi_div_two (y / x), pi_pos]
  · linarith [pi_pos]
  · linarith [pi_pos]
  · linarith [pi_pos]

/-- `arctan2` is strictly above `-π`. -/
lemma neg_pi_lt_arctan2 (y x : ℝ) : -π < arctan2 y x := by
  unfold arctan2
  split_ifs with h1 h2 h3 h4 h5
  · linarith [neg_pi_div_two_lt_arctan (y / x), pi_pos]
  · linarith [neg_pi_div_two_lt_arctan (y / x), pi_pos]
  · have hdiv : 0 < y / x := div_pos_iff.mpr (Or.inr ⟨not_le.mp h3, h2⟩)
    have := arctan_strictMono hdiv
    rw [arctan_zero] at this
    linarith
  · linarith [pi_pos]
  · linarith [pi_pos]
  · linarith [pi_pos]

/-- The absolute value of `arctan2` is at most `π`. -/
lemma abs_arctan2_le_pi (y x : ℝ) : |arctan2 y x| ≤ π :=
  abs_le.mpr ⟨(neg_pi_lt_arctan2 y x).le, arctan2_le_pi y x⟩

/-- Scaling a radian value of absolute value at most `π` by `180 / π`
gives a degree value of absolute value at most `180`. -/
lemma abs_scale_deg_le (t : ℝ) (ht : |t| ≤ π) : |t * 180 / π| ≤ 180 := by
  rw [abs_div, abs_mul, abs_of_pos pi_pos,
    abs_of_nonneg (by norm_num : (0:ℝ) ≤ 180), div_le_iff₀ pi_pos]
  nlinarith [pi_pos]

/-- The classifier's angle is always nonnegative (it is an absolute
value). -/
lemma angleOf_nonneg (coordinates : List (ℚ × ℚ)) :
    0 ≤ angleOf coordinates := by
  unfold angleOf
  exact abs_nonneg _

/-- The classifier's angle never exceeds 180 degrees. -/
lemma angleOf_le_180 (coordinates : List (ℚ × ℚ)) :
    angleOf coordinates ≤ 180 := by
  unfold angleOf
  exact abs_scale_deg_le _ (abs_arctan2_le_pi _ _)

/-- `np.arctan2` on the positive y-axis gives `π/2`. -/
lemma arctan2_pos_y (y : ℝ) (hy : 0 < y) : arctan2 y 0 = π / 2 := by
  unfold arctan2
  rw [if_neg (lt_irrefl 0), if_neg (lt_irrefl 0), if_pos hy]

/-- `np.arctan2 0 x` for negative `x` gives `π`, the wrap point. -/
lemma arctan2_zero_neg (x : ℝ) (hx : x < 0) : arctan2 0 x = π := by
  unfold arctan2
  rw [if_neg (by linarith), if_pos hx, if_pos le_rfl, zero_div,
    arctan_zero, zero_add]

/-- `np.arctan2` on the diagonal `y = x > 0` gives `π/4`. -/
lemma arctan2_diag (x : ℝ) (hx : 0 < x) : arctan2 x x = π / 4 := by
  unfold arctan2
  rw [if_pos hx, div_self hx.ne', arctan_one]

/-- C2: with at least 4 points, positive width, aspect ratio at most 5/2
and an angle strictly between 25 and 155 degrees, the classifier answers
Rotated. -/
theorem classify_mid_angle_rotated (coordinates : List (ℚ × ℚ))
    (h4 : 4 ≤ coordinates.length) (hw : 0 < widthOf coordinates)
    (hr : heightOf coordinates / widthOf coordinates ≤ 5/2)
    (ha : angleOf coordinates > 25 ∧ angleOf coordinates < 155) :
    detect_text_orientation_improved coordinates = .rotated := by
  unfold detect_text_orientation_improved
  rw [if_pos h4, if_neg hw.ne', if_neg (not_lt.mpr hr), if_pos ha]

theorem classify_mid_angle_rotated_witness :
    4 ≤ ([((0:ℚ), (0:ℚ)), (0, 10), (8, 10), (8, 0)]).length ∧
      0 < widthOf [((0:ℚ), (0:ℚ)), (0, 10), (8, 10), (8, 0)] ∧
      heightOf [((0:ℚ), (0:ℚ)), (0, 10), (8, 10), (8, 0)] /
          widthOf [((0:ℚ), (0:ℚ)), (0, 10), (8, 10), (8, 0)] ≤ 5/2 ∧
      (angleOf [((0:ℚ), (0:ℚ)), (0, 10), (8, 10), (8, 0)] > 25 ∧
        angleOf [((0:ℚ), (0:ℚ)), (0, 10), (8, 10), (8, 0)] < 155) ∧
      detect_text_orientation_improved
          [((0:ℚ), (0:ℚ)), (0, 10), (8, 10), (8, 0)] = .rotated :=
  have hw : 0 < widthOf [((0:ℚ), (0:ℚ)), (0, 10), (8, 10), (8, 0)] := by
    norm_num [widthOf, x_coords, listMax, listMin, max_def, min_def]
  have hr : heightOf [((0:ℚ), (0:ℚ)), (0, 10), (8, 10), (8, 0)] /
      widthOf [((0:ℚ), (0:ℚ)), (0, 10), (8, 10), (8, 0)] ≤ 5/2 := by
    norm_num [widthOf, heightOf, x_coords, y_coords, listMax, listMin,
      max_def, min_def]
  have hang : angleOf [((0:ℚ), (0:ℚ)), (0, 10), (8, 10), (8, 0)] = 90 := by
    simp only [angleOf, List.getD_cons_zero, List.getD_cons_succ]
    push_cast
    norm_num
    rw [arctan2_pos_y 10 (by norm_num), abs_of_nonneg (by positivity)]
    field_simp
    ring
  have ha : angleOf [((0:ℚ), (0:ℚ)), (0, 10), (8, 10), (8, 0)] > 25 ∧
      angleOf [((0:ℚ), (0:ℚ)), (0, 10), (8, 10), (8, 0)] < 155 := by
    rw [hang]; constructor <;> norm_num
  ⟨by decide, hw, hr, ha,
    classify_mid_angle_rotated _ (by decide) hw hr ha⟩

/-- C6 counterexample: on the polygon `[(1,0),(0,0),(0,1),(1,1)]` the
first edge points in the negative-x direction, `arctan2` returns exactly
`π`, and the computed angle is exactly 180 degrees, not strictly below
180. -/
theorem angle_reaches_180 :
    2 ≤ ([((1:ℚ), (0:ℚ)), (0, 0), (0, 1), (1, 1)]).length ∧
      ¬ angleOf [((1:ℚ), (0:ℚ)), (0, 0), (0, 1), (1, 1)] < 180 := by
  have hang : angleOf [((1:ℚ), (0:ℚ)), (0, 0), (0, 1), (1, 1)] = 180 := by
    simp only [angleOf, List.getD_cons_zero, List.getD_cons_succ]
    push_cast
    norm_num
    rw [arctan2_zero_neg (-1) (by norm_num), abs_of_nonneg (by positivity)]
    field_simp
  refine ⟨by decide, ?_⟩
  rw [hang]
  norm_num

/-- C6 (amended): for every list with at least 2 points, the angle the
classifier computes from the first two points lies in the closed range
[0°, 180°]; the upper endpoint 180 is attained. -/
theorem angle_in_closed_0_180 (coordinates : List (ℚ × ℚ))
    (h : 2 ≤ coordinates.length) :
    0 ≤ angleOf coordinates ∧ angleOf coordinates ≤ 180 :=
  ⟨angleOf_nonneg coordinates, angleOf_le_180 coordinates⟩

theorem angle_in_closed_0_180_witness :
    2 ≤ ([((0:ℚ), (0:ℚ)), (1, 0), (1, 1), (0, 1)]).length ∧
      (0 ≤ angleOf [((0:ℚ), (0:ℚ)), (1, 0), (1, 1), (0, 1)] ∧
        angleOf [((0:ℚ), (0:ℚ)), (1, 0), (1, 1), (0, 1)] ≤ 180) :=
  ⟨by decide, angle_in_closed_0_180 _ (by decide)⟩

/-- C9: the concrete polygon `[(0,0),(70,70),(40,100),(-30,30)]` has first
edge at 45 degrees and aspect ratio 1, so the classifier answers
Rotated. -/
theorem classify_scenario3_rotated :
    detect_text_orientation_improved
      [((0:ℚ), (0:ℚ)), (70, 70), (40, 100), (-30, 30)] = .rotated := by
  have hw : widthOf [((0:ℚ), (0:ℚ)), (70, 70), (40, 100), (-30, 30)] = 100 := by
    norm_num [widthOf, x_coords, listMax, listMin, max_def, min_def]
  have hh : heightOf [((0:ℚ), (0:ℚ)), (70, 70), (40, 100), (-30, 30)] = 100 := by
    norm_num [heightOf, y_coords, listMax, listMin, max_def, min_def]
  have hang : angleOf [((0:ℚ), (0:ℚ)), (70, 70), (40, 100), (-30, 30)] = 45 := by
    simp only [angleOf, List.getD_cons_zero, List.getD_cons_succ]
    push_cast
    norm_num
    rw [arctan2_diag 70 (by norm_num), abs_of_nonneg (by positivity)]
    field_simp
    ring
  unfold detect_text_orientation_improved
  rw [if_pos (by decide), if_neg (by rw [hw]; norm_num),
    if_neg (by rw [hw, hh]; norm_num),
    if_pos (by rw [hang]; constructor <;> norm_num)]

/-- C7: aggregating the empty polygon list yields the tally with all three
keys present and mapped to 0. -/
theorem aggregate_nil :
    analyze_text_orientations [] =
      { horizontal := 0, vertical := 0, rotated := 0 } := rfl
